import Mathlib

/-!
Shallow embedding of the pycvoa schema-definition / incremental-validation core
(MetaGen repository): the Solution value store (src/pycvoa/problem/solution.py),
its control layers (src/pycvoa/problem/ctrl/solution.py, src/pycvoa/control/domain.py,
src/pycvoa/problem/ctrl/domain.py) and the variable-definition registry
(layout from src/pycvoa/definition.py).  The Domain class itself
(pycvoa/problem/domain.py) is absent from the snapshot, so its query and
check methods are modelled from the specification; each such definition is
marked `Modelled from the spec:` in its doc comment.

Python semantics captured here: dicts are insertion-ordered association lists
with last-write-wins update; lists support negative indexing, clamping insert
and bounds-checked item access; exceptions are values of an `Err` kind that
abort the operation while keeping whatever mutations already happened (methods
mutate `self.__variables` in place, so an exception does not roll the store
back).  Every store operation is therefore a function from the variable store
to a result paired with the possibly-mutated store.
-/

namespace PyCVOA

/-- Exception kinds.  `definitionError`, `domainError` and `solutionError` are the
three typed error classes of the package (DefinitionError, DomainError,
SolutionError); the remaining constructors stand for the untyped Python builtin
exceptions that some code paths can raise (TypeError / AttributeError folded into
`typeError`, IndexError, KeyError, UnboundLocalError as `nameError`, ValueError,
AssertionError). -/
inductive Err where
  | definitionError (msg : String)
  | domainError (msg : String)
  | solutionError (msg : String)
  | valueError (msg : String)
  | typeError (msg : String)
  | indexError (msg : String)
  | keyError (msg : String)
  | nameError (msg : String)
  | assertionError
  deriving DecidableEq

/-- The type tags of pycvoa (pycvoa.control.types / pycvoa.problem.types):
INTEGER, REAL, CATEGORICAL, LAYER, VECTOR plus the derived categories BASIC and
NUMERICAL used by category checks. -/
inductive PyType where
  | INTEGER
  | REAL
  | CATEGORICAL
  | LAYER
  | VECTOR
  | BASIC
  | NUMERICAL
  deriving DecidableEq

/-- A basic (scalar) Python value: int, float or str.  Floats are modelled as
rationals; the code only ever compares them. -/
inductive BasicValue where
  | int (i : Int)
  | real (r : Rat)
  | str (s : String)
  deriving DecidableEq

/-- One component of a VECTOR value in the store: either a scalar or a layer
dictionary.  Python lists are heterogeneous, so a single vector may in
principle hold both shapes. -/
inductive CompValue where
  | basicC (b : BasicValue)
  | layerC (m : List (String × BasicValue))
  deriving DecidableEq

/-- A value stored for one variable in a Solution: scalar, layer dictionary, or
vector of components. -/
inductive VarValue where
  | basicV (b : BasicValue)
  | layerV (m : List (String × BasicValue))
  | vectorV (l : List CompValue)
  deriving DecidableEq

/-- The argument actually passed in the `element` position of
`layer_variable_element`: normally an element name, but
`Solution.get_element_value` passes the whole variable store there
(solution.py line 595). -/
inductive ElemArg where
  | name (s : String)
  | storeDict (d : List (String × VarValue))
  deriving DecidableEq

deriving instance DecidableEq for Except

/-! ### Python dictionaries as association lists -/

/-- `d.get(k)` / `d[k]` lookup. -/
def dictGet {α : Type} (k : String) : List (String × α) → Option α
  | [] => none
  | (k', v) :: t => if k' = k then some v else dictGet k t

/-- `k in d` membership test. -/
def dictMem {α : Type} (k : String) (d : List (String × α)) : Bool :=
  (dictGet k d).isSome

/-- `d[k] = v`: replace in place if the key exists, else append (Python dicts
keep insertion order). -/
def dictSet {α : Type} (k : String) (v : α) : List (String × α) → List (String × α)
  | [] => [(k, v)]
  | (k', v') :: t => if k' = k then (k, v) :: t else (k', v') :: dictSet k v t

/-! ### Python list primitives -/

/-- Normalise a possibly negative Python index against a length. -/
def pyNorm (n : Nat) (i : Int) : Int :=
  if i < 0 then i + n else i

/-- `l[i]` with Python negative-index semantics; IndexError when out of range. -/
def pyGetIdx {α : Type} (l : List α) (i : Int) : Except Err α :=
  let j := pyNorm l.length i
  if j < 0 then .error (.indexError "list index out of range")
  else
    match l.get? j.toNat with
    | some a => .ok a
    | none => .error (.indexError "list index out of range")

/-- `l[i] = x`; IndexError when out of range. -/
def pySetIdx {α : Type} (l : List α) (i : Int) (x : α) : Except Err (List α) :=
  let j := pyNorm l.length i
  if j < 0 then .error (.indexError "list assignment index out of range")
  else if j.toNat < l.length then .ok (l.set j.toNat x)
  else .error (.indexError "list assignment index out of range")

/-- `l.insert(i, x)`: Python clamps the index, it never fails. -/
def pyInsert {α : Type} (l : List α) (i : Int) (x : α) : List α :=
  let j := if i < 0 then max 0 ((l.length : Int) + i) else min i (l.length : Int)
  l.take j.toNat ++ x :: l.drop j.toNat

/-- `del l[i]`; IndexError when out of range. -/
def pyDelIdx {α : Type} (l : List α) (i : Int) : Except Err (List α) :=
  let j := pyNorm l.length i
  if j < 0 then .error (.indexError "list assignment index out of range")
  else if j.toNat < l.length then .ok (l.eraseIdx j.toNat)
  else .error (.indexError "list assignment index out of range")

/-- `len(x)` on a stored value: lists and dicts have a length, so do strings;
numbers raise TypeError. -/
def valLen : VarValue → Except Err Nat
  | .basicV (.str s) => .ok s.length
  | .basicV _ => .error (.typeError "object of this type has no len")
  | .layerV m => .ok m.length
  | .vectorV l => .ok l.length

/-! ### Variable definitions and the Domain registry

The registry layout follows `definition.py` (e.g. `register_vector_variable`
stores `[VECTOR, min_size, max_size, step_size, components]`); the `define_*`
builder surface and bound checks are those of the missing
`pycvoa.problem.domain.Domain` class, which takes no step argument in the
snapshot (see `use_cases/domains/support_domain.py`), so no step field is kept. -/

/-- Definition of one scalar slot: an Integer or Real range (inclusive bounds)
or a Categorical label set. -/
inductive BasicDef where
  | integerDef (lo hi : Int)
  | realDef (lo hi : Rat)
  | categoricalDef (labels : List BasicValue)
  deriving DecidableEq

/-- Declared component type of a VECTOR variable. -/
inductive CompDef where
  | basicComp (b : BasicDef)
  | layerComp (elements : List (String × BasicDef))
  deriving DecidableEq

/-- Definition of one variable: scalar, layer, or size-bounded vector whose
component type is optional until it is set (`are vector components defined` is
false until then). -/
inductive VarDef where
  | basicDef (b : BasicDef)
  | layerDef (elements : List (String × BasicDef))
  | vectorDef (minSize maxSize : Int) (comp : Option CompDef)
  deriving DecidableEq

/-- The Domain registry: a mapping from variable name to definition. -/
structure Domain where
  definitions : List (String × VarDef)
  deriving DecidableEq

def Domain.empty : Domain := ⟨[]⟩

/-- Modelled from the spec: registration of an Integer variable
(`Domain.define_integer` of the missing domain module; last write wins). -/
def Domain.define_integer (d : Domain) (name : String) (lo hi : Int) : Domain :=
  ⟨dictSet name (.basicDef (.integerDef lo hi)) d.definitions⟩

/-- Modelled from the spec: registration of a Real variable
(`Domain.define_real`). -/
def Domain.define_real (d : Domain) (name : String) (lo hi : Rat) : Domain :=
  ⟨dictSet name (.basicDef (.realDef lo hi)) d.definitions⟩

/-- Modelled from the spec: registration of a Categorical variable
(`Domain.define_categorical`). -/
def Domain.define_categorical (d : Domain) (name : String) (labels : List BasicValue) : Domain :=
  ⟨dictSet name (.basicDef (.categoricalDef labels)) d.definitions⟩

/-- Modelled from the spec: registration of a Layer variable with an initially
empty element record (`Domain.define_layer`). -/
def Domain.define_layer (d : Domain) (name : String) : Domain :=
  ⟨dictSet name (.layerDef []) d.definitions⟩

/-- Modelled from the spec: insertion of an Integer element into a layer
(`Domain.define_integer_element`); no-op when the target is not a layer. -/
def Domain.define_integer_element (d : Domain) (layer element : String) (lo hi : Int) : Domain :=
  match dictGet layer d.definitions with
  | some (.layerDef els) =>
      ⟨dictSet layer (.layerDef (dictSet element (.integerDef lo hi) els)) d.definitions⟩
  | _ => d

/-- Modelled from the spec: registration of a Vector variable with size bounds
and no component type yet (`Domain.define_vector`). -/
def Domain.define_vector (d : Domain) (name : String) (minSize maxSize : Int) : Domain :=
  ⟨dictSet name (.vectorDef minSize maxSize none) d.definitions⟩

/-- Modelled from the spec: fixing a vector component type to Integer
(`Domain.define_components_as_integer`); no-op when the target is not a vector. -/
def Domain.define_components_as_integer (d : Domain) (name : String) (lo hi : Int) : Domain :=
  match dictGet name d.definitions with
  | some (.vectorDef mn mx _) =>
      ⟨dictSet name (.vectorDef mn mx (some (.basicComp (.integerDef lo hi)))) d.definitions⟩
  | _ => d

/-- Modelled from the spec: fixing a vector component type to Layer with an
initially empty element record (`Domain.define_components_as_layer`). -/
def Domain.define_components_as_layer (d : Domain) (name : String) : Domain :=
  match dictGet name d.definitions with
  | some (.vectorDef mn mx _) =>
      ⟨dictSet name (.vectorDef mn mx (some (.layerComp []))) d.definitions⟩
  | _ => d

/-- Modelled from the spec: insertion of an Integer element into a layer-typed
vector component (`Domain.define_layer_vector_integer_element`). -/
def Domain.define_layer_vector_integer_element (d : Domain) (name element : String)
    (lo hi : Int) : Domain :=
  match dictGet name d.definitions with
  | some (.vectorDef mn mx (some (.layerComp els))) =>
      ⟨dictSet name
        (.vectorDef mn mx (some (.layerComp (dictSet element (.integerDef lo hi) els))))
        d.definitions⟩
  | _ => d

/-- The scalar value check of the Validation Engine: primitive kind must match
the declared variant, Integer and Real require min and max inclusive bounds,
Categorical requires membership in the label list. -/
def checkBasicDef : BasicDef → BasicValue → Bool
  | .integerDef lo hi, .int i => decide (lo ≤ i) && decide (i ≤ hi)
  | .realDef lo hi, .real r => decide (lo ≤ r) && decide (r ≤ hi)
  | .categoricalDef labels, v => labels.contains v
  | _, _ => false

/-- The type tag of a component definition. -/
def CompDef.tag : CompDef → PyType
  | .basicComp (.integerDef _ _) => .INTEGER
  | .basicComp (.realDef _ _) => .REAL
  | .basicComp (.categoricalDef _) => .CATEGORICAL
  | .layerComp _ => .LAYER

/-- Modelled from the spec: `Domain.get_variable_type`; references to a
variable that is not declared raise a definition error. -/
def Domain.get_variable_type (d : Domain) (v : String) : Except Err PyType :=
  match dictGet v d.definitions with
  | some (.basicDef (.integerDef _ _)) => .ok .INTEGER
  | some (.basicDef (.realDef _ _)) => .ok .REAL
  | some (.basicDef (.categoricalDef _)) => .ok .CATEGORICAL
  | some (.layerDef _) => .ok .LAYER
  | some (.vectorDef _ _ _) => .ok .VECTOR
  | none => .error (.definitionError ("The variable " ++ v ++ " is not defined in this domain."))

/-- Modelled from the spec: `Domain.is_defined_element` — is the element name
declared inside the named layer variable.  A non-string argument (such as the
whole variable store, which `Solution.get_element_value` passes here) is never
a declared element name. -/
def Domain.is_defined_element (d : Domain) (lv : String) (e : ElemArg) : Bool :=
  match dictGet lv d.definitions, e with
  | some (.layerDef els), .name s => dictMem s els
  | _, _ => false

/-- Modelled from the spec: `Domain.check_basic` — definition-level gates
(declared, and declared as a BASIC variant) raise a definition error, then the
scalar check decides acceptance. -/
def Domain.check_basic (d : Domain) (v : String) (val : BasicValue) : Except Err Bool :=
  match dictGet v d.definitions with
  | some (.basicDef bd) => .ok (checkBasicDef bd val)
  | some _ => .error (.definitionError ("The variable " ++ v ++ " is not defined as BASIC."))
  | none => .error (.definitionError ("The variable " ++ v ++ " is not defined in this domain."))

/-- Modelled from the spec: `Domain.check_element` — resolves the element
definition inside the named layer and applies the scalar check; undeclared
variable, non-layer variable or undeclared element raise a definition error. -/
def Domain.check_element (d : Domain) (lv e : String) (val : BasicValue) : Except Err Bool :=
  match dictGet lv d.definitions with
  | some (.layerDef els) =>
      match dictGet e els with
      | some bd => .ok (checkBasicDef bd val)
      | none => .error (.definitionError
          ("The element " ++ e ++ " is not defined in the " ++ lv ++ " variable."))
  | some _ => .error (.definitionError ("The variable " ++ lv ++ " is not defined as LAYER."))
  | none => .error (.definitionError ("The variable " ++ lv ++ " is not defined in this domain."))

/-- Modelled from the spec: `Domain.check_vector_basic_value` — resolves the
vector component definition and applies the scalar check; rejects at
definition level when the variable is not a vector or its component type is
not scalar. -/
def Domain.check_vector_basic_value (d : Domain) (v : String) (val : BasicValue) :
    Except Err Bool :=
  match dictGet v d.definitions with
  | some (.vectorDef _ _ (some (.basicComp bd))) => .ok (checkBasicDef bd val)
  | some (.vectorDef _ _ (some (.layerComp _))) =>
      .error (.definitionError ("The components of " ++ v ++ " are not defined as BASIC."))
  | some (.vectorDef _ _ none) =>
      .error (.definitionError ("The components of " ++ v ++ " are not defined."))
  | some _ => .error (.definitionError ("The variable " ++ v ++ " is not defined as VECTOR."))
  | none => .error (.definitionError ("The variable " ++ v ++ " is not defined in this domain."))

/-- Modelled from the spec: `Domain.check_vector_layer_element_value` — resolves
the element definition of a layer-typed vector component and applies the scalar
check. -/
def Domain.check_vector_layer_element_value (d : Domain) (v e : String) (val : BasicValue) :
    Except Err Bool :=
  match dictGet v d.definitions with
  | some (.vectorDef _ _ (some (.layerComp els))) =>
      match dictGet e els with
      | some bd => .ok (checkBasicDef bd val)
      | none => .error (.definitionError
          ("The element " ++ e ++ " is not defined in the " ++ v ++ " components."))
  | some (.vectorDef _ _ (some (.basicComp _))) =>
      .error (.definitionError ("The components of " ++ v ++ " are not defined as LAYER."))
  | some (.vectorDef _ _ none) =>
      .error (.definitionError ("The components of " ++ v ++ " are not defined."))
  | some _ => .error (.definitionError ("The variable " ++ v ++ " is not defined as VECTOR."))
  | none => .error (.definitionError ("The variable " ++ v ++ " is not defined in this domain."))

/-- Modelled from the spec: `Domain.get_vector_components_type`. -/
def Domain.get_vector_components_type (d : Domain) (v : String) : Except Err PyType :=
  match dictGet v d.definitions with
  | some (.vectorDef _ _ (some c)) => .ok c.tag
  | some (.vectorDef _ _ none) =>
      .error (.definitionError ("The components of " ++ v ++ " are not defined."))
  | some _ => .error (.definitionError ("The variable " ++ v ++ " is not defined as VECTOR."))
  | none => .error (.definitionError ("The variable " ++ v ++ " is not defined in this domain."))

/-- Modelled from the spec: `Domain.get_remaining_available_basic_components` —
remaining slots for a scalar-shaped vector, `max_size - current_length`. -/
def Domain.get_remaining_available_basic_components (d : Domain) (v : String) (size : Nat) :
    Except Err Int :=
  match dictGet v d.definitions with
  | some (.vectorDef _ mx _) => .ok (mx - size)
  | some _ => .error (.definitionError ("The variable " ++ v ++ " is not defined as VECTOR."))
  | none => .error (.definitionError ("The variable " ++ v ++ " is not defined in this domain."))

/-- Modelled from the spec: `Domain.get_remaining_available_complete_components`
— remaining slots for a complete-shaped vector, `max_size - current_length`
(the completeness-aware variant below receives the last component). -/
def Domain.get_remaining_available_complete_components (d : Domain) (v : String) (size : Nat) :
    Except Err Int :=
  match dictGet v d.definitions with
  | some (.vectorDef _ mx _) => .ok (mx - size)
  | some _ => .error (.definitionError ("The variable " ++ v ++ " is not defined as VECTOR."))
  | none => .error (.definitionError ("The variable " ++ v ++ " is not defined in this domain."))

/-- Modelled from the spec: `Domain.get_remaining_available_layer_components` —
remaining capacity of a layer-typed vector is reduced to zero whenever the last
component has fewer set elements than the layer declares, otherwise
`max_size - current_length`. -/
def Domain.get_remaining_available_layer_components (d : Domain) (v : String) (size : Nat)
    (last : List (String × BasicValue)) : Except Err Int :=
  match dictGet v d.definitions with
  | some (.vectorDef _ mx (some (.layerComp els))) =>
      .ok (if last.length < els.length then 0 else mx - size)
  | some (.vectorDef _ _ _) =>
      .error (.definitionError ("The components of " ++ v ++ " are not defined as LAYER."))
  | some _ => .error (.definitionError ("The variable " ++ v ++ " is not defined as VECTOR."))
  | none => .error (.definitionError ("The variable " ++ v ++ " is not defined in this domain."))

/-- Modelled from the spec: `check_item_type` of the missing
pycvoa.control.common module — category match, where BASIC covers the three
scalar variants and NUMERICAL the two numeric ones. -/
def check_item_type (check t : PyType) : Bool :=
  match check with
  | .BASIC => (t == .INTEGER) || (t == .REAL) || (t == .CATEGORICAL)
  | .NUMERICAL => (t == .INTEGER) || (t == .REAL)
  | c => t == c

namespace CtrlDomain

/-- Per-call domain override resolution (control/domain.py lines 12-18): the
external (per-call) domain when present, else the internal (bound) one, else a
DomainError. -/
def get_valid_domain (external internal : Option Domain) : Except Err Domain :=
  match external with
  | some d => .ok d
  | none =>
      match internal with
      | some d => .ok d
      | none => .error (.domainError
          "A domain must be specified, via parameter or set_domain method.")

/-- control/domain.py `check_basic_value`. -/
def check_basic_value (v : String) (val : BasicValue) (external internal : Option Domain) :
    Except Err Unit :=
  match get_valid_domain external internal with
  | .error e => .error e
  | .ok d =>
      match d.check_basic v val with
      | .error e => .error e
      | .ok b =>
          if b then .ok ()
          else .error (.domainError ("The value is not compatible with the " ++ v
            ++ " variable definition."))

/-- control/domain.py `check_layer_element_value`. -/
def check_layer_element_value (lv e : String) (val : BasicValue)
    (external internal : Option Domain) : Except Err Unit :=
  match get_valid_domain external internal with
  | .error e => .error e
  | .ok d =>
      match d.check_element lv e val with
      | .error e => .error e
      | .ok b =>
          if b then .ok ()
          else .error (.domainError ("The value is not compatible for the " ++ e
            ++ " element in the " ++ lv ++ " variable."))

/-- control/domain.py `check_basic_vector_value`; returns the resolved domain. -/
def check_basic_vector_value (v : String) (val : BasicValue)
    (external internal : Option Domain) : Except Err Domain :=
  match get_valid_domain external internal with
  | .error e => .error e
  | .ok d =>
      match d.check_vector_basic_value v val with
      | .error e => .error e
      | .ok b =>
          if b then .ok d
          else .error (.domainError ("The value is not valid for the " ++ v ++ " variable."))

/-- control/domain.py `check_layer_vector_element`; note that it raises a plain
ValueError, not a DomainError.  Returns the resolved domain. -/
def check_layer_vector_element (v e : String) (val : BasicValue)
    (external internal : Option Domain) : Except Err Domain :=
  match get_valid_domain external internal with
  | .error er => .error er
  | .ok d =>
      match d.check_vector_layer_element_value v e val with
      | .error er => .error er
      | .ok b =>
          if b then .ok d
          else .error (.valueError ("The value is not valid for the " ++ e
            ++ " element in the " ++ v ++ " variable."))

/-- The element loop of control/domain.py `check_layer_vector_component`. -/
def check_layer_values_loop (d : Domain) (v : String) :
    List (String × BasicValue) → Except Err Unit
  | [] => .ok ()
  | (e, val) :: t =>
      match d.check_vector_layer_element_value v e val with
      | .error er => .error er
      | .ok b =>
          if b then check_layer_values_loop d v t
          else .error (.domainError ("The " ++ e
            ++ " element of the is not compatible with its definition."))

/-- control/domain.py `check_layer_vector_component`; returns the resolved
domain. -/
def check_layer_vector_component (v : String) (layerValues : List (String × BasicValue))
    (external internal : Option Domain) : Except Err Domain :=
  match get_valid_domain external internal with
  | .error e => .error e
  | .ok d =>
      match check_layer_values_loop d v layerValues with
      | .error e => .error e
      | .ok _ => .ok d

/-- control/domain.py `basic_variable` (lines 147-151): definition-level gate
that the variable is declared as BASIC; raises a DefinitionError otherwise. -/
def basic_variable (v : String) (external internal : Option Domain) : Except Err Domain :=
  match get_valid_domain external internal with
  | .error e => .error e
  | .ok d =>
      match d.get_variable_type v with
      | .error e => .error e
      | .ok t =>
          if check_item_type .BASIC t = false then
            .error (.definitionError ("The variable " ++ v ++ " is not defined as BASIC."))
          else .ok d

/-- control/domain.py `layer_variable_element` (lines 161-170).  The element
argument is whatever the caller passed there; when the definition check fails
on a non-string argument, building the error message concatenates a str with a
dict, which raises a TypeError in Python (this is exactly what happens on every
`Solution.get_element_value` call, which passes the variable store here). -/
def layer_variable_element (lv : String) (e : ElemArg) (external internal : Option Domain) :
    Except Err Domain :=
  match get_valid_domain external internal with
  | .error er => .error er
  | .ok d =>
      match d.get_variable_type lv with
      | .error er => .error er
      | .ok t =>
          if check_item_type .LAYER t = false then
            .error (.definitionError ("The variable " ++ lv ++ " is not defined as LAYER."))
          else if d.is_defined_element lv e = false then
            match e with
            | .name s => .error (.definitionError ("The element " ++ s ++ " of the " ++ lv
                ++ " LAYER variable is not defined in this domain."))
            | .storeDict _ => .error (.typeError "can only concatenate str (not dict) to str")
          else .ok d

/-- control/domain.py `basic_vector_variable` via `__check_component_type`
(lines 173-ths): the vector component type must be in BASICS, else a plain
ValueError. -/
def basic_vector_variable (v : String) (external internal : Option Domain) :
    Except Err Domain :=
  match get_valid_domain external internal with
  | .error e => .error e
  | .ok d =>
      match d.get_vector_components_type v with
      | .error e => .error e
      | .ok ct =>
          if check_item_type .BASIC ct = false then
            .error (.valueError ("The components of " ++ v ++ " are not defined as BASIC."))
          else .ok d

end CtrlDomain

/-! ### Legacy control layer: src/pycvoa/problem/ctrl/domain.py

Kept from before the refactor; its `get_valid_domain` (lines 108-115) first
runs the parameter check `is_domain_class` on the external argument, which the
missing parameter module performs on the argument type and which a typed
`Option Domain` argument always satisfies. -/

namespace CtrlDomainLegacy

/-- problem/ctrl/domain.py `get_valid_domain` (lines 108-115). -/
def get_valid_domain (external internal : Option Domain) : Except Err Domain :=
  match external with
  | some d => .ok d
  | none =>
      match internal with
      | some d => .ok d
      | none => .error (.domainError
          "A domain must be specified, via parameter or set_domain method.")

end CtrlDomainLegacy

/-! ### Control layer: src/pycvoa/problem/ctrl/solution.py -/

namespace CtrlSolution

/-- The variable store of a Solution. -/
abbrev Store := List (String × VarValue)

/-- ctrl/solution.py `is_assigned_variable` (lines 12-14). -/
def is_assigned_variable (v : String) (store : Store) : Except Err Unit :=
  if dictMem v store then .ok ()
  else .error (.solutionError ("The " ++ v ++ " variable is not assigned in this solution."))

/-- ctrl/solution.py `is_assigned_component` (lines 17-22): bounds check of the
index against `len(store.get(v))`; when the variable is absent `store.get`
yields None and `len(None)` is a TypeError. -/
def is_assigned_component (v : String) (index : Int) (store : Store) : Except Err Unit :=
  match dictGet v store with
  | none => .error (.typeError "object of type NoneType has no len")
  | some val =>
      match valLen val with
      | .error e => .error e
      | .ok n =>
          if index < 0 ∨ (n : Int) ≤ index then
            .error (.solutionError ("The component of " ++ v
              ++ " VECTOR variable is not assigned in this solution."))
          else .ok ()

/-- ctrl/solution.py `is_assigned_layer_element` (lines 5-9): the keys call on
a stored value that is not a dict is an AttributeError. -/
def is_assigned_layer_element (lv e : String) (store : Store) : Except Err Unit :=
  match is_assigned_variable lv store with
  | .error er => .error er
  | .ok _ =>
      match dictGet lv store with
      | some (.layerV m) =>
          if dictMem e m then .ok ()
          else .error (.solutionError ("The element " ++ e ++ " is not assigned in the "
            ++ lv ++ " variable of this solution."))
      | some _ => .error (.typeError "object has no attribute keys")
      | none => .error (.typeError "object has no attribute keys")

/-- ctrl/solution.py `vector_insertion_available` (lines 30-36). -/
def vector_insertion_available (v : String) (d : Domain) (store : Store) : Except Err Unit :=
  match
    (if dictMem v store then
      match dictGet v store with
      | some val => valLen val
      | none => .error (.typeError "object of type NoneType has no len")
    else .ok 0) with
  | .error e => .error e
  | .ok size =>
      match d.get_remaining_available_basic_components v size with
      | .error e => .error e
      | .ok r =>
          if r = 0 then .error (.solutionError ("The " ++ v ++ " is complete."))
          else .ok ()

/-- ctrl/solution.py `vector_adding_available` (lines 39-41). -/
def vector_adding_available (v : String) (remaining : Int) : Except Err Unit :=
  if remaining = 0 then .error (.solutionError ("The " ++ v ++ " is complete."))
  else .ok ()

/-- ctrl/solution.py `vector_element_adding_available` (lines 44-45): the body
is literally `pass`. -/
def vector_element_adding_available (_lv : String) (_store : Store) (_d : Domain) :
    Except Err Unit :=
  .ok ()

/-- ctrl/solution.py `assigned_vector_removal_available` (lines 48-52): checks
a remaining-capacity quantity against `< 0`, which for `max_size - length` with
a within-bounds length never triggers. -/
def assigned_vector_removal_available (v : String) (store : Store) (d : Domain) :
    Except Err Unit :=
  match is_assigned_variable v store with
  | .error e => .error e
  | .ok _ =>
      match dictGet v store with
      | none => .error (.typeError "object of type NoneType has no len")
      | some val =>
          match valLen val with
          | .error e => .error e
          | .ok n =>
              match d.get_remaining_available_basic_components v n with
              | .error e => .error e
              | .ok r =>
                  if r < 0 then .error (.solutionError ("The " ++ v ++ " can not deleting."))
                  else .ok ()

end CtrlSolution

abbrev Store := CtrlSolution.Store

/-! ### The Solution value store: src/pycvoa/problem/solution.py

The Python methods mutate `self.__variables` in place and let exceptions
propagate, so each operation is embedded as a function from the store to a
result paired with the (possibly already mutated) store.  The `Solution`
wrappers below plug in the bound domain and rebuild the record. -/

/-- `len(variables[v])` as the Python code computes it. -/
def pyLenOf (v : String) (store : Store) : Except Err Nat :=
  match dictGet v store with
  | some x => valLen x
  | none => .error (.typeError "object of type NoneType has no len")

/-- `variables[v][i]`: Python subscripting of the stored value.  A stored dict
subscripted with an int index is a KeyError, a stored string yields a one-char
string, a stored number is not subscriptable. -/
def pyGetComp (v : String) (i : Int) (store : Store) : Except Err CompValue :=
  match dictGet v store with
  | none => .error (.typeError "NoneType object is not subscriptable")
  | some (.vectorV l) => pyGetIdx l i
  | some (.layerV _) => .error (.keyError "int key not present in dict")
  | some (.basicV (.str s)) =>
      match pyGetIdx s.toList i with
      | .ok c => .ok (.basicC (.str (String.mk [c])))
      | .error e => .error e
  | some (.basicV _) => .error (.typeError "object is not subscriptable")

/-- Body of `Solution.set_basic` (solution.py lines 77-100): validate, then
`variables[v] = deepcopy(value)`. -/
def set_basic_vars (v : String) (val : BasicValue) (external internal : Option Domain)
    (store : Store) : Except Err Unit × Store :=
  match CtrlDomain.check_basic_value v val external internal with
  | .error e => (.error e, store)
  | .ok _ => (.ok (), dictSet v (.basicV val) store)

/-- Body of `Solution.set_element` (solution.py lines 107-131): validate, then
create `{element: value}` or update the stored dict; a stored non-dict fails
the `assert type(layer_value) is dict`. -/
def set_element_vars (lv e : String) (val : BasicValue) (external internal : Option Domain)
    (store : Store) : Except Err Unit × Store :=
  match CtrlDomain.check_layer_element_value lv e val external internal with
  | .error er => (.error er, store)
  | .ok _ =>
      if dictMem lv store = false then
        (.ok (), dictSet lv (.layerV [(e, val)]) store)
      else
        match dictGet lv store with
        | some (.layerV m) => (.ok (), dictSet lv (.layerV (dictSet e val m)) store)
        | _ => (.error .assertionError, store)

/-- `Solution.__put_basic` (solution.py lines 731-751): append or insert into a
scalar vector.  When the variable is absent a singleton list is created with no
capacity check; otherwise `vector_insertion_available` and
`vector_adding_available` gate the write, and the returned remaining capacity
is decremented. -/
def put_basic (v : String) (val : BasicValue) (external internal : Option Domain)
    (index : Option Int) (store : Store) : Except Err Int × Store :=
  match CtrlDomain.check_basic_vector_value v val external internal with
  | .error e => (.error e, store)
  | .ok d =>
      if dictMem v store = false then
        let store' := dictSet v (.vectorV [.basicC val]) store
        match pyLenOf v store' with
        | .error e => (.error e, store')
        | .ok n =>
            match d.get_remaining_available_complete_components v n with
            | .error e => (.error e, store')
            | .ok r => (.ok r, store')
      else
        match CtrlSolution.vector_insertion_available v d store with
        | .error e => (.error e, store)
        | .ok _ =>
            match pyLenOf v store with
            | .error e => (.error e, store)
            | .ok n =>
                match d.get_remaining_available_complete_components v n with
                | .error e => (.error e, store)
                | .ok r =>
                    match CtrlSolution.vector_adding_available v r with
                    | .error e => (.error e, store)
                    | .ok _ =>
                        match dictGet v store with
                        | some (.vectorV l) =>
                            let l' := match index with
                              | none => l ++ [.basicC val]
                              | some i => pyInsert l i (.basicC val)
                            (.ok (r - 1), dictSet v (.vectorV l') store)
                        | _ => (.error (.typeError "object has no attribute append"), store)

/-- `Solution.__put_layer` (solution.py lines 753-772): append or insert a full
layer component.  Unlike `__put_basic` there is no `vector_insertion_available`
call on the assigned path. -/
def put_layer (v : String) (layerValues : List (String × BasicValue))
    (external internal : Option Domain) (index : Option Int) (store : Store) :
    Except Err Int × Store :=
  match CtrlDomain.check_layer_vector_component v layerValues external internal with
  | .error e => (.error e, store)
  | .ok d =>
      if dictMem v store = false then
        let store' := dictSet v (.vectorV [.layerC layerValues]) store
        match pyLenOf v store' with
        | .error e => (.error e, store')
        | .ok n =>
            match d.get_remaining_available_complete_components v n with
            | .error e => (.error e, store')
            | .ok r => (.ok r, store')
      else
        match pyLenOf v store with
        | .error e => (.error e, store)
        | .ok n =>
            match d.get_remaining_available_complete_components v n with
            | .error e => (.error e, store)
            | .ok r =>
                match CtrlSolution.vector_adding_available v r with
                | .error e => (.error e, store)
                | .ok _ =>
                    match dictGet v store with
                    | some (.vectorV l) =>
                        let l' := match index with
                          | none => l ++ [.layerC layerValues]
                          | some i => pyInsert l i (.layerC layerValues)
                        (.ok (r - 1), dictSet v (.vectorV l') store)
                    | _ => (.error (.typeError "object has no attribute append"), store)

/-- The final `return` of `Solution.__put_element` (solution.py lines 799-801),
evaluated after the store has been mutated: it measures the vector again and
hands the component at `valid_index` to the completeness-aware capacity query
(which measures its set elements, a TypeError on a scalar component). -/
def put_element_return (d : Domain) (v : String) (validIndex : Int) (store : Store) :
    Except Err Int × Store :=
  match pyLenOf v store with
  | .error er => (.error er, store)
  | .ok n =>
      match pyGetComp v validIndex store with
      | .error er => (.error er, store)
      | .ok (.layerC last) =>
          match d.get_remaining_available_layer_components v n last with
          | .error er => (.error er, store)
          | .ok r => (.ok r, store)
      | .ok (.basicC _) => (.error (.typeError "object of this type has no len"), store)

/-- `Solution.__put_element` (solution.py lines 774-801): element-level append
into a layer vector.  A fresh variable gets `[{element: value}]`, but the final
return statement then reads the local `valid_index`, which that branch never
assigns — an UnboundLocalError raised after the write.  On an assigned
variable, a new component `{element: value}` is appended (or inserted) exactly
when the element is already present in the component at `valid_index`
(`-1`, the last, when no index is given), otherwise that component is updated
in place. -/
def put_element (v e : String) (val : BasicValue) (external internal : Option Domain)
    (index : Option Int) (store : Store) : Except Err Int × Store :=
  match CtrlDomain.check_layer_vector_element v e val external internal with
  | .error er => (.error er, store)
  | .ok d =>
      if dictMem v store = false then
        (.error (.nameError "local variable valid_index referenced before assignment"),
          dictSet v (.vectorV [.layerC [(e, val)]]) store)
      else
        match CtrlSolution.vector_element_adding_available v store d with
        | .error er => (.error er, store)
        | .ok _ =>
            let validIndex : Int := match index with
              | none => -1
              | some i => i
            match pyGetComp v validIndex store with
            | .error er => (.error er, store)
            | .ok (.basicC _) => (.error (.typeError "object has no attribute keys"), store)
            | .ok (.layerC m) =>
                if dictMem e m then
                  match dictGet v store with
                  | some (.vectorV l) =>
                      let l' := match index with
                        | none => l ++ [.layerC [(e, val)]]
                        | some i => pyInsert l i (.layerC [(e, val)])
                      put_element_return d v validIndex (dictSet v (.vectorV l') store)
                  | _ => (.error (.typeError "object has no attribute append"), store)
                else
                  match dictGet v store with
                  | some (.vectorV l) =>
                      match pySetIdx l validIndex (.layerC (dictSet e val m)) with
                      | .ok l' =>
                          put_element_return d v validIndex (dictSet v (.vectorV l') store)
                      | .error er => (.error er, store)
                  | _ => (.error (.typeError "object does not support item assignment"), store)

/-- Body of `Solution.set_basic_component` (solution.py lines 177-209): when
the variable is absent a singleton `[value]` is created (whatever the index);
otherwise `is_assigned_component` gates the in-place write. -/
def set_basic_component_vars (v : String) (index : Int) (val : BasicValue)
    (external internal : Option Domain) (store : Store) : Except Err Unit × Store :=
  match CtrlDomain.check_basic_vector_value v val external internal with
  | .error e => (.error e, store)
  | .ok _ =>
      if dictMem v store = false then
        (.ok (), dictSet v (.vectorV [.basicC val]) store)
      else
        match CtrlSolution.is_assigned_component v index store with
        | .error e => (.error e, store)
        | .ok _ =>
            match dictGet v store with
            | some (.vectorV l) =>
                match pySetIdx l index (.basicC val) with
                | .ok l' => (.ok (), dictSet v (.vectorV l') store)
                | .error e => (.error e, store)
            | _ => (.error (.typeError "object does not support item assignment"), store)

/-- Body of `Solution.set_layer_component` (solution.py lines 225-231): same
shape as `set_basic_component` with a full layer dictionary. -/
def set_layer_component_vars (v : String) (index : Int)
    (layerValues : List (String × BasicValue)) (external internal : Option Domain)
    (store : Store) : Except Err Unit × Store :=
  match CtrlDomain.check_layer_vector_component v layerValues external internal with
  | .error e => (.error e, store)
  | .ok _ =>
      if dictMem v store = false then
        (.ok (), dictSet v (.vectorV [.layerC layerValues]) store)
      else
        match CtrlSolution.is_assigned_component v index store with
        | .error e => (.error e, store)
        | .ok _ =>
            match dictGet v store with
            | some (.vectorV l) =>
                match pySetIdx l index (.layerC layerValues) with
                | .ok l' => (.ok (), dictSet v (.vectorV l') store)
                | .error e => (.error e, store)
            | _ => (.error (.typeError "object does not support item assignment"), store)

/-- Body of `Solution.set_element_of_layer_component` (solution.py lines
278-307): when the variable is absent a singleton `[{element: value}]` is
created; otherwise `is_assigned_component` gates
`variables[v][index][element] = value`. -/
def set_element_of_layer_component_vars (v : String) (index : Int) (e : String)
    (val : BasicValue) (external internal : Option Domain) (store : Store) :
    Except Err Unit × Store :=
  match CtrlDomain.check_layer_vector_element v e val external internal with
  | .error er => (.error er, store)
  | .ok _ =>
      if dictMem v store = false then
        (.ok (), dictSet v (.vectorV [.layerC [(e, val)]]) store)
      else
        match CtrlSolution.is_assigned_component v index store with
        | .error er => (.error er, store)
        | .ok _ =>
            match pyGetComp v index store with
            | .error er => (.error er, store)
            | .ok (.basicC _) =>
                (.error (.typeError "object does not support item assignment"), store)
            | .ok (.layerC m) =>
                match dictGet v store with
                | some (.vectorV l) =>
                    match pySetIdx l index (.layerC (dictSet e val m)) with
                    | .ok l' => (.ok (), dictSet v (.vectorV l') store)
                    | .error er => (.error er, store)
                | _ => (.error (.typeError "object does not support item assignment"), store)

/-- Body of `Solution.remove_component` (solution.py lines 366-381): resolve
the domain, require assignment, run the removal-availability check, then
`variables[v].pop()` — which on an empty list raises an IndexError. -/
def remove_component_vars (v : String) (external internal : Option Domain) (store : Store) :
    Except Err Unit × Store :=
  match CtrlDomain.get_valid_domain external internal with
  | .error e => (.error e, store)
  | .ok d =>
      match CtrlSolution.is_assigned_variable v store with
      | .error e => (.error e, store)
      | .ok _ =>
          match CtrlSolution.assigned_vector_removal_available v store d with
          | .error e => (.error e, store)
          | .ok _ =>
              match dictGet v store with
              | some (.vectorV []) => (.error (.indexError "pop from empty list"), store)
              | some (.vectorV l) => (.ok (), dictSet v (.vectorV l.dropLast) store)
              | some (.layerV _) => (.error (.typeError "pop expected at least 1 argument"), store)
              | some (.basicV _) => (.error (.typeError "object has no attribute pop"), store)
              | none => (.error (.typeError "NoneType object has no attribute pop"), store)

/-- Body of `Solution.delete_component` (solution.py lines 383-402): like
`remove_component` but `is_assigned_component` bounds-checks the index before
`del variables[v][index]`. -/
def delete_component_vars (v : String) (index : Int) (external internal : Option Domain)
    (store : Store) : Except Err Unit × Store :=
  match CtrlDomain.get_valid_domain external internal with
  | .error e => (.error e, store)
  | .ok d =>
      match CtrlSolution.is_assigned_variable v store with
      | .error e => (.error e, store)
      | .ok _ =>
          match CtrlSolution.assigned_vector_removal_available v store d with
          | .error e => (.error e, store)
          | .ok _ =>
              match CtrlSolution.is_assigned_component v index store with
              | .error e => (.error e, store)
              | .ok _ =>
                  match dictGet v store with
                  | some (.vectorV l) =>
                      match pyDelIdx l index with
                      | .ok l' => (.ok (), dictSet v (.vectorV l') store)
                      | .error e => (.error e, store)
                  | some (.layerV _) => (.error (.keyError "int key not present in dict"), store)
                  | some (.basicV _) => (.error (.typeError "object does not support item deletion"), store)
                  | none => (.error (.typeError "NoneType object is not subscriptable"), store)

/-- A candidate solution: bound domain, variable store, discovery counter and
fitness (solution.py lines 39-65). -/
structure Solution where
  domain : Option Domain
  vars : Store
  discovery_iteration : Int
  fitness : Rat
  deriving DecidableEq

def Solution.set_basic (s : Solution) (v : String) (val : BasicValue)
    (ext : Option Domain) : Except Err Unit × Solution :=
  let p := set_basic_vars v val ext s.domain s.vars
  (p.1, { s with vars := p.2 })

def Solution.set_element (s : Solution) (lv e : String) (val : BasicValue)
    (ext : Option Domain) : Except Err Unit × Solution :=
  let p := set_element_vars lv e val ext s.domain s.vars
  (p.1, { s with vars := p.2 })

def Solution.add_basic_component (s : Solution) (v : String) (val : BasicValue)
    (ext : Option Domain) : Except Err Int × Solution :=
  let p := put_basic v val ext s.domain none s.vars
  (p.1, { s with vars := p.2 })

def Solution.insert_basic_component (s : Solution) (v : String) (index : Int)
    (val : BasicValue) (ext : Option Domain) : Except Err Int × Solution :=
  let p := put_basic v val ext s.domain (some index) s.vars
  (p.1, { s with vars := p.2 })

def Solution.set_basic_component (s : Solution) (v : String) (index : Int)
    (val : BasicValue) (ext : Option Domain) : Except Err Unit × Solution :=
  let p := set_basic_component_vars v index val ext s.domain s.vars
  (p.1, { s with vars := p.2 })

def Solution.add_layer_component (s : Solution) (v : String)
    (layerValues : List (String × BasicValue)) (ext : Option Domain) :
    Except Err Int × Solution :=
  let p := put_layer v layerValues ext s.domain none s.vars
  (p.1, { s with vars := p.2 })

def Solution.insert_layer_component (s : Solution) (v : String) (index : Int)
    (layerValues : List (String × BasicValue)) (ext : Option Domain) :
    Except Err Int × Solution :=
  let p := put_layer v layerValues ext s.domain (some index) s.vars
  (p.1, { s with vars := p.2 })

def Solution.set_layer_component (s : Solution) (v : String) (index : Int)
    (layerValues : List (String × BasicValue)) (ext : Option Domain) :
    Except Err Unit × Solution :=
  let p := set_layer_component_vars v index layerValues ext s.domain s.vars
  (p.1, { s with vars := p.2 })

def Solution.add_element_to_layer_component (s : Solution) (v e : String)
    (val : BasicValue) (ext : Option Domain) : Except Err Int × Solution :=
  let p := put_element v e val ext s.domain none s.vars
  (p.1, { s with vars := p.2 })

def Solution.insert_element_to_layer_component (s : Solution) (v : String) (index : Int)
    (e : String) (val : BasicValue) (ext : Option Domain) : Except Err Int × Solution :=
  let p := put_element v e val ext s.domain (some index) s.vars
  (p.1, { s with vars := p.2 })

def Solution.set_element_of_layer_component (s : Solution) (v : String) (index : Int)
    (e : String) (val : BasicValue) (ext : Option Domain) : Except Err Unit × Solution :=
  let p := set_element_of_layer_component_vars v index e val ext s.domain s.vars
  (p.1, { s with vars := p.2 })

def Solution.remove_component (s : Solution) (v : String) (ext : Option Domain) :
    Except Err Unit × Solution :=
  let p := remove_component_vars v ext s.domain s.vars
  (p.1, { s with vars := p.2 })

def Solution.delete_component (s : Solution) (v : String) (index : Int)
    (ext : Option Domain) : Except Err Unit × Solution :=
  let p := delete_component_vars v index ext s.domain s.vars
  (p.1, { s with vars := p.2 })

/-- `Solution.get_basic_value` (solution.py lines 551-576): the definition gate
`basic_variable`, then `is_assigned_variable`, then `variables.get(v)`. -/
def Solution.get_basic_value (s : Solution) (v : String) (ext : Option Domain) :
    Except Err (Option VarValue) :=
  match CtrlDomain.basic_variable v ext s.domain with
  | .error e => .error e
  | .ok _ =>
      match CtrlSolution.is_assigned_variable v s.vars with
      | .error e => .error e
      | .ok _ => .ok (dictGet v s.vars)

/-- `Solution.get_element_value` (solution.py lines 578-597).  The call on line
595 passes `self.__variables` — the whole store — in the element position of
`layer_variable_element`. -/
def Solution.get_element_value (s : Solution) (lv e : String) (ext : Option Domain) :
    Except Err (Option BasicValue) :=
  match CtrlDomain.layer_variable_element lv (.storeDict s.vars) ext s.domain with
  | .error er => .error er
  | .ok _ =>
      match CtrlSolution.is_assigned_layer_element lv e s.vars with
      | .error er => .error er
      | .ok _ =>
          match dictGet lv s.vars with
          | some (.layerV m) => .ok (dictGet e m)
          | some _ => .error (.typeError "object has no attribute get")
          | none => .error (.typeError "object has no attribute get")

/-! ### Python equality of values and the Solution comparison operators -/

/-- Python `==` on scalar values: numbers compare across int and float, strings
compare as strings, cross-kind comparisons are False. -/
def pyEqBasic : BasicValue → BasicValue → Bool
  | .int i, .int j => i == j
  | .int i, .real q => (i : Rat) == q
  | .real p, .int j => p == (j : Rat)
  | .real p, .real q => p == q
  | .str s, .str t => s == t
  | _, _ => false

/-- Python `==` on dicts: same key set and equal values, order-insensitive. -/
def dictPyEq (m1 m2 : List (String × BasicValue)) : Bool :=
  m1.length == m2.length &&
    m1.all fun kv =>
      match dictGet kv.1 m2 with
      | some w => pyEqBasic kv.2 w
      | none => false

/-- Python `==` on vector components. -/
def pyEqComp : CompValue → CompValue → Bool
  | .basicC a, .basicC b => pyEqBasic a b
  | .layerC m, .layerC n => dictPyEq m n
  | _, _ => false

/-- Python `==` on stored values. -/
def pyEqVar : VarValue → VarValue → Bool
  | .basicV a, .basicV b => pyEqBasic a b
  | .layerV m, .layerV n => dictPyEq m n
  | .vectorV l, .vectorV k =>
      l.length == k.length && (l.zip k).all fun p => pyEqComp p.1 p.2
  | _, _ => false

/-- Python `==` lifted to possibly-missing values (None == None is True). -/
def pyEqOptVar : Option VarValue → Option VarValue → Bool
  | none, none => true
  | some a, some b => pyEqVar a b
  | _, _ => false

/-- `Solution.__eq__` (solution.py lines 820-839).  The loop condition is
`i < len(keys) & res`, where `&` is the bitwise AND of the int `len(keys)`
with the bool `res` (True is 1): with `res = True` the bound is `len % 2`, so
the body runs at all only when the key count of the left operand is odd, and
after one iteration the bound is at most 1, so it never runs twice.  Hence the
result is True outright for an even key count, else the comparison of the
first key's values via `get_basic_value` on both sides (which can itself
raise). -/
def Solution.eq (a b : Solution) : Except Err Bool :=
  let keys := a.vars.map Prod.fst
  if keys.length % 2 = 1 then
    match keys with
    | [] => .ok true
    | k :: _ =>
        match a.get_basic_value k none with
        | .error e => .error e
        | .ok vf =>
            match b.get_basic_value k none with
            | .error e => .error e
            | .ok vo => .ok (pyEqOptVar vf vo)
  else
    .ok true

/-- `Solution.__ne__` (solution.py lines 841-846): `not self.__eq__(other)`. -/
def Solution.ne (a b : Solution) : Except Err Bool :=
  match Solution.eq a b with
  | .ok r => .ok (!r)
  | .error e => .error e

/-! ### Concrete example domain and solutions

Shapes taken from `use_cases/domains/support_domain.py`: scalar variables,
a layer, a scalar vector and a layer vector. -/

/-- A small concrete domain used by witnesses and counterexamples: integer `I`,
real `R`, layer `L` with element `EI`, scalar vector `VI` with `max_size = 2`,
degenerate scalar vector `V0` with `max_size = 0`, and layer vector `VL` with
elements `el1`, `el2`. -/
def exampleDomain : Domain :=
  Domain.empty
    |>.define_integer "I" 0 100
    |>.define_real "R" 0 1
    |>.define_layer "L"
    |>.define_integer_element "L" "EI" 0 100
    |>.define_vector "VI" 0 2
    |>.define_components_as_integer "VI" 1 10
    |>.define_vector "V0" 0 0
    |>.define_components_as_integer "V0" 1 10
    |>.define_vector "VL" 0 4
    |>.define_components_as_layer "VL"
    |>.define_layer_vector_integer_element "VL" "el1" 0 100
    |>.define_layer_vector_integer_element "VL" "el2" 0 100

/-- An empty solution bound to `exampleDomain` (worst-fitness construction is
irrelevant to the store claims; fitness is just a field here). -/
def emptySolution : Solution :=
  { domain := some exampleDomain, vars := [], discovery_iteration := 0, fitness := 0 }

/-- A solution with the two scalar variables `I` and `R` assigned (an even
number of variables). -/
def solIR : Solution :=
  { emptySolution with vars := [("I", .basicV (.int 50)), ("R", .basicV (.real (1/2)))] }

/-- A solution whose vector `VI` holds one component. -/
def solVISingle : Solution :=
  { emptySolution with vars := [("VI", .vectorV [.basicC (.int 4)])] }

/-- A solution whose vector `VI` is assigned but empty. -/
def solVIEmpty : Solution :=
  { emptySolution with vars := [("VI", .vectorV [])] }

/-- A solution whose layer vector `VL` holds one incomplete component (element
`el2` missing). -/
def solVLIncomplete : Solution :=
  { emptySolution with vars := [("VL", .vectorV [.layerC [("el1", .int 12)]])] }

/-- The store shape reached after `i` successful appends of `val` into the
fresh vector variable `v` of `s0`: the first append appends the key at the end
of the store dict, later appends extend the stored list in place. -/
def repeatAppendState (s0 : Solution) (v : String) (val : BasicValue) : Nat → Solution
  | 0 => s0
  | n + 1 =>
      { s0 with vars := s0.vars ++ [(v, .vectorV (List.replicate (n + 1) (.basicC val)))] }

/-! ### Dictionary and list lemmas -/

theorem dictGet_dictSet_self {α : Type} (k : String) (v : α) (l : List (String × α)) :
    dictGet k (dictSet k v l) = some v := by
  induction l with
  | nil => simp [dictSet, dictGet]
  | cons h t ih =>
      obtain ⟨k', v'⟩ := h
      by_cases hk : k' = k
      · simp [dictSet, dictGet, hk]
      · simp [dictSet, dictGet, hk, ih]

theorem dictSet_fresh {α : Type} {k : String} {l : List (String × α)}
    (h : dictGet k l = none) (v : α) : dictSet k v l = l ++ [(k, v)] := by
  induction l with
  | nil => simp [dictSet]
  | cons hd t ih =>
      obtain ⟨k', v'⟩ := hd
      by_cases hk : k' = k
      · simp [dictGet, hk] at h
      · simp only [dictGet, hk, if_false] at h
        simp [dictSet, hk, ih h]

theorem dictGet_append_fresh {α : Type} {k : String} {l : List (String × α)}
    (h : dictGet k l = none) (v : α) : dictGet k (l ++ [(k, v)]) = some v := by
  induction l with
  | nil => simp [dictGet]
  | cons hd t ih =>
      obtain ⟨k', v'⟩ := hd
      by_cases hk : k' = k
      · simp [dictGet, hk] at h
      · simp only [dictGet, hk, if_false] at h
        simp [dictGet, hk, ih h]

theorem dictSet_append_fresh {α : Type} {k : String} {l : List (String × α)}
    (h : dictGet k l = none) (v w : α) :
    dictSet k w (l ++ [(k, v)]) = l ++ [(k, w)] := by
  induction l with
  | nil => simp [dictSet]
  | cons hd t ih =>
      obtain ⟨k', v'⟩ := hd
      by_cases hk : k' = k
      · simp [dictGet, hk] at h
      · simp only [dictGet, hk, if_false] at h
        simp [dictSet, hk, ih h]

theorem concat_set_last {α : Type} (l : List α) (a b : α) :
    (l ++ [a]).set l.length b = l ++ [b] := by
  induction l with
  | nil => rfl
  | cons h t ih => simp [ih]

theorem pyGetIdx_concat_last {α : Type} (l : List α) (a : α) :
    pyGetIdx (l ++ [a]) (-1) = .ok a := by
  have hnorm : pyNorm (l ++ [a]).length (-1) = (l.length : Int) := by
    simp [pyNorm]
  have hnn : ¬ ((l.length : Int) < 0) := by omega
  simp only [pyGetIdx, hnorm]
  rw [if_neg hnn]
  simp [List.getElem?_concat_length]

theorem pySetIdx_concat_last {α : Type} (l : List α) (a b : α) :
    pySetIdx (l ++ [a]) (-1) b = .ok (l ++ [b]) := by
  have hnorm : pyNorm (l ++ [a]).length (-1) = (l.length : Int) := by
    simp [pyNorm]
  have hnn : ¬ ((l.length : Int) < 0) := by omega
  simp only [pySetIdx, hnorm]
  rw [if_neg hnn]
  have hlt : ((l.length : Int)).toNat < (l ++ [a]).length := by
    simp
  rw [if_pos hlt]
  simp [concat_set_last]

theorem pyGetIdx_append_two_last {α : Type} (l : List α) (a b : α) :
    pyGetIdx (l ++ [a, b]) (-1) = .ok b := by
  rw [show l ++ [a, b] = (l ++ [a]) ++ [b] by simp]
  exact pyGetIdx_concat_last _ _

/-! ### Claim theorems -/

/-- Claim C10: every value-store mutation (scalar set, layer-element set,
component append, insert and set for both scalar and layer vectors, element
append and set inside layer-vector components, removal by pop and by index)
leaves the fitness and the discovery-iteration counter of the Solution
unchanged, whether it succeeds or raises: only the variable store is touched. -/
theorem c10_frame :
    ∀ (s : Solution) (v e : String) (val : BasicValue)
      (lv : List (String × BasicValue)) (i : Int) (ext : Option Domain),
      ((s.set_basic v val ext).2.fitness = s.fitness ∧
        (s.set_basic v val ext).2.discovery_iteration = s.discovery_iteration) ∧
      ((s.set_element v e val ext).2.fitness = s.fitness ∧
        (s.set_element v e val ext).2.discovery_iteration = s.discovery_iteration) ∧
      ((s.add_basic_component v val ext).2.fitness = s.fitness ∧
        (s.add_basic_component v val ext).2.discovery_iteration = s.discovery_iteration) ∧
      ((s.insert_basic_component v i val ext).2.fitness = s.fitness ∧
        (s.insert_basic_component v i val ext).2.discovery_iteration =
          s.discovery_iteration) ∧
      ((s.set_basic_component v i val ext).2.fitness = s.fitness ∧
        (s.set_basic_component v i val ext).2.discovery_iteration =
          s.discovery_iteration) ∧
      ((s.add_layer_component v lv ext).2.fitness = s.fitness ∧
        (s.add_layer_component v lv ext).2.discovery_iteration = s.discovery_iteration) ∧
      ((s.insert_layer_component v i lv ext).2.fitness = s.fitness ∧
        (s.insert_layer_component v i lv ext).2.discovery_iteration =
          s.discovery_iteration) ∧
      ((s.set_layer_component v i lv ext).2.fitness = s.fitness ∧
        (s.set_layer_component v i lv ext).2.discovery_iteration =
          s.discovery_iteration) ∧
      ((s.add_element_to_layer_component v e val ext).2.fitness = s.fitness ∧
        (s.add_element_to_layer_component v e val ext).2.discovery_iteration =
          s.discovery_iteration) ∧
      ((s.insert_element_to_layer_component v i e val ext).2.fitness = s.fitness ∧
        (s.insert_element_to_layer_component v i e val ext).2.discovery_iteration =
          s.discovery_iteration) ∧
      ((s.set_element_of_layer_component v i e val ext).2.fitness = s.fitness ∧
        (s.set_element_of_layer_component v i e val ext).2.discovery_iteration =
          s.discovery_iteration) ∧
      ((s.remove_component v ext).2.fitness = s.fitness ∧
        (s.remove_component v ext).2.discovery_iteration = s.discovery_iteration) ∧
      ((s.delete_component v i ext).2.fitness = s.fitness ∧
        (s.delete_component v i ext).2.discovery_iteration = s.discovery_iteration) := by
  intro s v e val lv i ext
  exact ⟨⟨rfl, rfl⟩, ⟨rfl, rfl⟩, ⟨rfl, rfl⟩, ⟨rfl, rfl⟩, ⟨rfl, rfl⟩, ⟨rfl, rfl⟩,
    ⟨rfl, rfl⟩, ⟨rfl, rfl⟩, ⟨rfl, rfl⟩, ⟨rfl, rfl⟩, ⟨rfl, rfl⟩, ⟨rfl, rfl⟩, ⟨rfl, rfl⟩⟩

/-- Claim C4 (code_bug): store mutations are claimed to be atomic on error, but
`add_element_to_layer_component` on a fresh layer-vector variable first stores
the new component and then raises an UnboundLocalError (the method-level return
reads the local `valid_index`, which the fresh branch never assigns): a partial
write observed at a concrete input. -/
theorem c4_partial_write_evaluation :
    (emptySolution.add_element_to_layer_component "VL" "el1" (.int 12) none).1 =
      .error (.nameError "local variable valid_index referenced before assignment") ∧
    (emptySolution.add_element_to_layer_component "VL" "el1" (.int 12) none).2.vars =
      [("VL", .vectorV [.layerC [("el1", .int 12)]])] ∧
    (emptySolution.add_element_to_layer_component "VL" "el1" (.int 12) none).2.vars ≠
      emptySolution.vars := by
  refine ⟨by decide, by decide, by decide⟩

/-- Claim C8 (code_bug): `set_element` accepts a valid layer-element value, but
reading it back with `get_element_value` raises instead of returning it —
solution.py line 595 passes the variable store in the element position of
`layer_variable_element`, so the definition check fails and the error-message
concatenation of a str with a dict raises a TypeError on every call. -/
theorem c8_round_trip_bug_evaluation :
    (emptySolution.set_element "L" "EI" (.int 5) none).1 = .ok () ∧
    (emptySolution.set_element "L" "EI" (.int 5) none).2.vars =
      [("L", .layerV [("EI", .int 5)])] ∧
    Solution.get_element_value (emptySolution.set_element "L" "EI" (.int 5) none).2
      "L" "EI" none =
      .error (.typeError "can only concatenate str (not dict) to str") := by
  refine ⟨by decide, by decide, by decide⟩

/-- Claim C9 (code_bug): Solution equality is claimed to hold iff the
variable-to-value mappings agree, but `__eq__` compares at most the first key
and only when the left operand has an odd number of variables (its while
condition uses the bitwise `&` of `len(keys)` with the bool `res`): a solution
with two variables compares equal to an empty one, and `!=` consequently
returns False for them as well. -/
theorem c9_eq_bug_evaluation :
    Solution.eq solIR emptySolution = .ok true ∧
    Solution.eq emptySolution solIR = .ok true ∧
    solIR.vars ≠ emptySolution.vars ∧
    Solution.ne solIR emptySolution = .ok false := by
  refine ⟨by decide, by decide, by decide, by decide⟩

/-- Claim C1 (counterexample): for a scalar vector declared with
`max_size = 0`, the claim says appending is legal exactly 0 times and the first
append is rejected with a capacity error; but the first append on an absent
variable performs no capacity check at all, so it is accepted, stores one
component (length 1 > max_size) and returns remaining capacity -1. -/
theorem c1_counterexample :
    emptySolution.add_basic_component "V0" (.int 5) none =
      (.ok (-1), { emptySolution with vars := [("V0", .vectorV [.basicC (.int 5)])] }) := by
  decide

/-- Claim C2 (counterexample): the claim says an element-level append creates a
new component only once the last component has every declared element assigned;
but with `VL = [{el1: 12}]` (element `el2` still missing, and `el2` is declared
for the layer components of `VL`), appending `el1` again creates component 1. -/
theorem c2_counterexample :
    solVLIncomplete.add_element_to_layer_component "VL" "el1" (.int 15) none =
      (.ok 0, { emptySolution with vars :=
        [("VL", .vectorV [.layerC [("el1", .int 12)], .layerC [("el1", .int 15)]])] }) ∧
    dictGet "el2" [("el1", BasicValue.int 12)] = none ∧
    Domain.check_vector_layer_element_value exampleDomain "VL" "el2" (.int 0) = .ok true := by
  refine ⟨by decide, by decide, by decide⟩

/-- Claim C6 (counterexample): the claim says `set_basic_component` rejects any
index whose component is not yet assigned; but when the vector variable is
absent from the solution the call succeeds for index 5, creating a singleton
vector (and changing the length from unassigned to 1). -/
theorem c6_counterexample :
    dictGet "VI" emptySolution.vars = none ∧
    emptySolution.set_basic_component "VI" 5 (.int 3) none =
      (.ok (), { emptySolution with vars := [("VI", .vectorV [.basicC (.int 3)])] }) := by
  refine ⟨by decide, by decide⟩

/-- Claim C7 (counterexample): the claim says removal on an empty vector raises
a structural (solution) error and does not fail untyped; but `remove_component`
on an assigned empty vector reaches `list.pop()` and raises an IndexError (the
min-size guard compares a non-negative remaining capacity with `< 0` and never
fires). -/
theorem c7_counterexample :
    solVIEmpty.remove_component "VI" none =
      (.error (.indexError "pop from empty list"), solVIEmpty) := by
  decide

theorem dictMem_none {α : Type} {k : String} {l : List (String × α)}
    (h : dictGet k l = none) : dictMem k l = false := by
  simp [dictMem, h]

theorem dictMem_some {α : Type} {k : String} {l : List (String × α)} {x : α}
    (h : dictGet k l = some x) : dictMem k l = true := by
  simp [dictMem, h]

theorem is_assigned_component_ok {v : String} {idx : Int} {store : Store}
    {l : List CompValue} (h : dictGet v store = some (.vectorV l))
    (h0 : 0 ≤ idx) (h1 : idx < (l.length : Int)) :
    CtrlSolution.is_assigned_component v idx store = .ok () := by
  simp only [CtrlSolution.is_assigned_component, h, valLen]
  rw [if_neg (by omega : ¬ (idx < 0 ∨ (l.length : Int) ≤ idx))]

theorem is_assigned_component_err {v : String} {idx : Int} {store : Store}
    {l : List CompValue} (h : dictGet v store = some (.vectorV l))
    (hbad : idx < 0 ∨ (l.length : Int) ≤ idx) :
    CtrlSolution.is_assigned_component v idx store = .error (.solutionError
      ("The component of " ++ v ++ " VECTOR variable is not assigned in this solution.")) := by
  simp only [CtrlSolution.is_assigned_component, h, valLen]
  rw [if_pos hbad]

theorem pySetIdx_in_range {α : Type} (l : List α) (idx : Int) (x : α)
    (h0 : 0 ≤ idx) (h1 : idx < (l.length : Int)) :
    pySetIdx l idx x = .ok (l.set idx.toNat x) := by
  have hn : pyNorm l.length idx = idx := by
    simp only [pyNorm, if_neg (by omega : ¬ idx < 0)]
  simp only [pySetIdx, hn]
  rw [if_neg (by omega : ¬ idx < 0), if_pos (by omega : idx.toNat < l.length)]

theorem check_basic_vector_value_ok {d : Domain} {v : String} {val : BasicValue}
    {mn mx : Int} {bd : BasicDef}
    (hd : dictGet v d.definitions = some (.vectorDef mn mx (some (.basicComp bd))))
    (hval : checkBasicDef bd val = true) :
    CtrlDomain.check_basic_vector_value v val none (some d) = .ok d := by
  simp [CtrlDomain.check_basic_vector_value, CtrlDomain.get_valid_domain,
    Domain.check_vector_basic_value, hd, hval]

theorem check_layer_vector_element_ok {d : Domain} {v e : String} {val : BasicValue}
    {mn mx : Int} {els : List (String × BasicDef)} {bd : BasicDef}
    (hd : dictGet v d.definitions = some (.vectorDef mn mx (some (.layerComp els))))
    (he : dictGet e els = some bd) (hval : checkBasicDef bd val = true) :
    CtrlDomain.check_layer_vector_element v e val none (some d) = .ok d := by
  simp [CtrlDomain.check_layer_vector_element, CtrlDomain.get_valid_domain,
    Domain.check_vector_layer_element_value, hd, he, hval]

theorem check_layer_vector_component_ok {d : Domain} {v : String}
    {lvals : List (String × BasicValue)}
    (hloop : CtrlDomain.check_layer_values_loop d v lvals = .ok ()) :
    CtrlDomain.check_layer_vector_component v lvals none (some d) = .ok d := by
  simp [CtrlDomain.check_layer_vector_component, CtrlDomain.get_valid_domain, hloop]

/-- Claim C5: on a solution with a bound domain, reading a variable that is
declared (as a scalar) but never assigned raises a solution (structural) error,
reading a variable that is not declared at all raises a definition error, and
the two error kinds are distinct constructors of the error type. -/
theorem c5_unassigned_vs_undeclared (d : Domain) (v : String) (s : Solution)
    (hdom : s.domain = some d) :
    (dictGet v d.definitions = none →
      s.get_basic_value v none = .error (.definitionError
        ("The variable " ++ v ++ " is not defined in this domain."))) ∧
    (∀ bd : BasicDef, dictGet v d.definitions = some (.basicDef bd) →
      dictGet v s.vars = none →
      s.get_basic_value v none = .error (.solutionError
        ("The " ++ v ++ " variable is not assigned in this solution."))) ∧
    (∀ m1 m2 : String, Err.definitionError m1 ≠ Err.solutionError m2) := by
  refine ⟨?_, ?_, ?_⟩
  · intro hnone
    simp [Solution.get_basic_value, CtrlDomain.basic_variable, CtrlDomain.get_valid_domain,
      hdom, Domain.get_variable_type, hnone]
  · intro bd hdecl hunass
    cases bd <;>
      simp [Solution.get_basic_value, CtrlDomain.basic_variable, CtrlDomain.get_valid_domain,
        hdom, Domain.get_variable_type, hdecl, check_item_type,
        CtrlSolution.is_assigned_variable, dictMem_none hunass]
  · intro m1 m2 h
    exact Err.noConfusion h

/-- Witness for C5 at concrete inputs: `NOPE` is undeclared in the example
domain and reading it gives a definition error; `I` is declared but unassigned
in the empty solution and reading it gives a solution error. -/
theorem c5_witness :
    dictGet "NOPE" exampleDomain.definitions = none ∧
    emptySolution.get_basic_value "NOPE" none = .error (.definitionError
      "The variable NOPE is not defined in this domain.") ∧
    dictGet "I" exampleDomain.definitions = some (.basicDef (.integerDef 0 100)) ∧
    emptySolution.get_basic_value "I" none = .error (.solutionError
      "The I variable is not assigned in this solution.") :=
  ⟨by decide,
   (c5_unassigned_vs_undeclared exampleDomain "NOPE" emptySolution rfl).1 (by decide),
   by decide,
   (c5_unassigned_vs_undeclared exampleDomain "I" emptySolution rfl).2.1
     (.integerDef 0 100) (by decide) rfl⟩

/-- Claim C7 (amended): for a declared vector variable, `remove_component` and
`delete_component` on an unassigned variable raise a solution (structural)
error and leave the store unchanged; on an assigned but empty vector,
`delete_component` raises a solution error, while `remove_component` reaches
`pop()` and raises an untyped IndexError — still without mutating the store. -/
theorem c7_amended (d : Domain) (v : String) (mn mx : Int) (comp : Option CompDef)
    (s : Solution) (hdom : s.domain = some d)
    (hd : dictGet v d.definitions = some (.vectorDef mn mx comp))
    (hmx : 0 ≤ mx) :
    (dictGet v s.vars = none →
      (s.remove_component v none = (.error (.solutionError
        ("The " ++ v ++ " variable is not assigned in this solution.")), s) ∧
       ∀ i : Int, s.delete_component v i none = (.error (.solutionError
        ("The " ++ v ++ " variable is not assigned in this solution.")), s))) ∧
    (dictGet v s.vars = some (.vectorV []) →
      (s.remove_component v none = (.error (.indexError "pop from empty list"), s) ∧
       ∀ i : Int, s.delete_component v i none = (.error (.solutionError
        ("The component of " ++ v ++ " VECTOR variable is not assigned in this solution.")), s))) := by
  obtain ⟨dom, vars0, di, fit⟩ := s
  obtain rfl : dom = some d := hdom
  constructor
  · intro hunass
    replace hunass : dictGet v vars0 = none := hunass
    constructor
    · simp [Solution.remove_component, remove_component_vars, CtrlDomain.get_valid_domain,
        CtrlSolution.is_assigned_variable, dictMem_none hunass]
    · intro i
      simp [Solution.delete_component, delete_component_vars, CtrlDomain.get_valid_domain,
        CtrlSolution.is_assigned_variable, dictMem_none hunass]
  · intro hempty
    replace hempty : dictGet v vars0 = some (.vectorV []) := hempty
    have havail : CtrlSolution.assigned_vector_removal_available v vars0 d = .ok () := by
      simp only [CtrlSolution.assigned_vector_removal_available,
        CtrlSolution.is_assigned_variable, dictMem_some hempty, if_true, hempty, valLen,
        Domain.get_remaining_available_basic_components, hd]
      rw [if_neg (by simp; omega)]
    constructor
    · simp [Solution.remove_component, remove_component_vars, CtrlDomain.get_valid_domain,
        CtrlSolution.is_assigned_variable, dictMem_some hempty, havail, hempty]
    · intro i
      have hcomp : CtrlSolution.is_assigned_component v i vars0 = .error (.solutionError
          ("The component of " ++ v ++ " VECTOR variable is not assigned in this solution.")) :=
        is_assigned_component_err hempty (by simp; omega)
      simp [Solution.delete_component, delete_component_vars, CtrlDomain.get_valid_domain,
        CtrlSolution.is_assigned_variable, dictMem_some hempty, havail, hcomp]

/-- Witness for C7 at concrete inputs: `VI` is declared with bounds 0..2 in the
example domain; removal from the unassigned variable gives the solution error,
and from the assigned empty vector `remove_component` gives the IndexError
while `delete_component` gives the solution error. -/
theorem c7_witness :
    dictGet "VI" emptySolution.vars = none ∧
    emptySolution.remove_component "VI" none = (.error (.solutionError
      "The VI variable is not assigned in this solution."), emptySolution) ∧
    dictGet "VI" solVIEmpty.vars = some (.vectorV []) ∧
    solVIEmpty.remove_component "VI" none =
      (.error (.indexError "pop from empty list"), solVIEmpty) ∧
    solVIEmpty.delete_component "VI" 0 none = (.error (.solutionError
      "The component of VI VECTOR variable is not assigned in this solution."), solVIEmpty) := by
  have h1 := c7_amended exampleDomain "VI" 0 2 (some (.basicComp (.integerDef 1 10)))
    emptySolution rfl (by decide) (by decide)
  have h2 := c7_amended exampleDomain "VI" 0 2 (some (.basicComp (.integerDef 1 10)))
    solVIEmpty rfl (by decide) (by decide)
  exact ⟨by decide, (h1.1 (by decide)).1, by decide, (h2.2 (by decide)).1,
    (h2.2 (by decide)).2 0⟩

/-- Claim C6 (amended): `set_basic_component` (and `set_layer_component`) on an
already-assigned vector requires `0 ≤ index < length` — otherwise a solution
(structural) error with the store unchanged — and a successful call replaces
the指component in place, leaving the length unchanged; but when the vector
variable is absent from the solution the call succeeds for any index and
creates a singleton vector containing the value. -/
theorem c6_amended (d : Domain) (v : String) (mn mx : Int) (bd : BasicDef)
    (val : BasicValue) (idx : Int) (s : Solution)
    (hdom : s.domain = some d)
    (hd : dictGet v d.definitions = some (.vectorDef mn mx (some (.basicComp bd))))
    (hval : checkBasicDef bd val = true) :
    (dictGet v s.vars = none →
      s.set_basic_component v idx val none =
        (.ok (), { s with vars := s.vars ++ [(v, .vectorV [.basicC val])] })) ∧
    (∀ l : List CompValue, dictGet v s.vars = some (.vectorV l) →
      ((idx < 0 ∨ (l.length : Int) ≤ idx) →
        s.set_basic_component v idx val none = (.error (.solutionError
          ("The component of " ++ v ++ " VECTOR variable is not assigned in this solution.")), s)) ∧
      (0 ≤ idx → idx < (l.length : Int) →
        s.set_basic_component v idx val none =
          (.ok (), { s with vars := dictSet v (.vectorV (l.set idx.toNat (.basicC val))) s.vars }) ∧
        (l.set idx.toNat (.basicC val)).length = l.length)) ∧
    (∀ (w : String) (mn' mx' : Int) (els : List (String × BasicDef))
        (lvals : List (String × BasicValue)),
      dictGet w d.definitions = some (.vectorDef mn' mx' (some (.layerComp els))) →
      CtrlDomain.check_layer_values_loop d w lvals = .ok () →
      ((dictGet w s.vars = none →
        s.set_layer_component w idx lvals none =
          (.ok (), { s with vars := s.vars ++ [(w, .vectorV [.layerC lvals])] })) ∧
       (∀ l : List CompValue, dictGet w s.vars = some (.vectorV l) →
        ((idx < 0 ∨ (l.length : Int) ≤ idx) →
          s.set_layer_component w idx lvals none = (.error (.solutionError
            ("The component of " ++ w ++ " VECTOR variable is not assigned in this solution.")), s)) ∧
        (0 ≤ idx → idx < (l.length : Int) →
          s.set_layer_component w idx lvals none =
            (.ok (), { s with vars := dictSet w (.vectorV (l.set idx.toNat (.layerC lvals))) s.vars }) ∧
          (l.set idx.toNat (.layerC lvals)).length = l.length)))) := by
  obtain ⟨dom, vars0, di, fit⟩ := s
  obtain rfl : dom = some d := hdom
  refine ⟨?_, ?_, ?_⟩
  · intro hfresh
    replace hfresh : dictGet v vars0 = none := hfresh
    simp [Solution.set_basic_component, set_basic_component_vars,
      check_basic_vector_value_ok hd hval, dictMem_none hfresh, dictSet_fresh hfresh]
  · intro l hl
    replace hl : dictGet v vars0 = some (.vectorV l) := hl
    constructor
    · intro hbad
      simp [Solution.set_basic_component, set_basic_component_vars,
        check_basic_vector_value_ok hd hval, dictMem_some hl,
        is_assigned_component_err hl hbad]
    · intro h0 h1
      refine ⟨?_, by simp⟩
      simp [Solution.set_basic_component, set_basic_component_vars,
        check_basic_vector_value_ok hd hval, dictMem_some hl,
        is_assigned_component_ok hl h0 h1, hl, pySetIdx_in_range l idx _ h0 h1]
  · intro w mn' mx' els lvals hw hloop
    constructor
    · intro hfresh
      replace hfresh : dictGet w vars0 = none := hfresh
      simp [Solution.set_layer_component, set_layer_component_vars,
        check_layer_vector_component_ok hloop, dictMem_none hfresh, dictSet_fresh hfresh]
    · intro l hl
      replace hl : dictGet w vars0 = some (.vectorV l) := hl
      constructor
      · intro hbad
        simp [Solution.set_layer_component, set_layer_component_vars,
          check_layer_vector_component_ok hloop, dictMem_some hl,
          is_assigned_component_err hl hbad]
      · intro h0 h1
        refine ⟨?_, by simp⟩
        simp [Solution.set_layer_component, set_layer_component_vars,
          check_layer_vector_component_ok hloop, dictMem_some hl,
          is_assigned_component_ok hl h0 h1, hl, pySetIdx_in_range l idx _ h0 h1]

/-- Witness for C6 at concrete inputs: on `VI = [4]`, index 3 is rejected with
the solution error and index 0 succeeds keeping length 1; on the unassigned
`VI` of the empty solution, index 5 succeeds and creates a singleton. -/
theorem c6_witness :
    dictGet "VI" solVISingle.vars = some (.vectorV [.basicC (.int 4)]) ∧
    solVISingle.set_basic_component "VI" 3 (.int 3) none = (.error (.solutionError
      "The component of VI VECTOR variable is not assigned in this solution."), solVISingle) ∧
    solVISingle.set_basic_component "VI" 0 (.int 3) none =
      (.ok (), { solVISingle with
        vars := dictSet "VI" (.vectorV [.basicC (.int 3)]) solVISingle.vars }) ∧
    emptySolution.set_basic_component "VI" 5 (.int 3) none =
      (.ok (), { emptySolution with
        vars := emptySolution.vars ++ [("VI", .vectorV [.basicC (.int 3)])] }) := by
  have h1 := c6_amended exampleDomain "VI" 0 2 (.integerDef 1 10) (.int 3) 3 solVISingle
    rfl (by decide) (by decide)
  have h2 := c6_amended exampleDomain "VI" 0 2 (.integerDef 1 10) (.int 3) 0 solVISingle
    rfl (by decide) (by decide)
  have h3 := c6_amended exampleDomain "VI" 0 2 (.integerDef 1 10) (.int 3) 5 emptySolution
    rfl (by decide) (by decide)
  refine ⟨by decide, ?_, ?_, h3.1 (by decide)⟩
  · exact (h1.2.1 [.basicC (.int 4)] (by decide)).1 (by right; decide)
  · exact ((h2.2.1 [.basicC (.int 4)] (by decide)).2 (by decide) (by decide)).1

/-- Claim C1 (amended): for a scalar vector declared with `max_size = k ≥ 1`
and a value accepted by its component definition, starting from a solution in
which the vector is unassigned, `add_basic_component` succeeds exactly `k`
times — the append after the i-th success returns the remaining capacity
`k - i - 1` and produces the store with `i+1` stored components — and the
`(k+1)`-th append is rejected with the capacity solution error, leaving the
store unchanged; after every successful append the vector length is within
`[0, k]`.  (For `k = 0` the first append is accepted unchecked, see the
counterexample.) -/
theorem c1_amended (d : Domain) (v : String) (val : BasicValue) (mn k : Int)
    (bd : BasicDef) (s0 : Solution)
    (hdom : s0.domain = some d)
    (hd : dictGet v d.definitions = some (.vectorDef mn k (some (.basicComp bd))))
    (hval : checkBasicDef bd val = true)
    (hfresh : dictGet v s0.vars = none)
    (hk : 1 ≤ k) :
    (∀ i : Nat, (i : Int) < k →
      (repeatAppendState s0 v val i).add_basic_component v val none =
        (.ok (k - i - 1), repeatAppendState s0 v val (i + 1))) ∧
    ((repeatAppendState s0 v val k.toNat).add_basic_component v val none =
      (.error (.solutionError ("The " ++ v ++ " is complete.")),
        repeatAppendState s0 v val k.toNat)) ∧
    (∀ i : Nat, 1 ≤ i → (i : Int) ≤ k →
      dictGet v (repeatAppendState s0 v val i).vars =
        some (.vectorV (List.replicate i (.basicC val))) ∧
      (0 : Int) ≤ ((List.replicate i (CompValue.basicC val)).length : Int) ∧
      ((List.replicate i (CompValue.basicC val)).length : Int) ≤ k) := by
  obtain ⟨dom, vars0, di, fit⟩ := s0
  obtain rfl : dom = some d := hdom
  replace hfresh : dictGet v vars0 = none := hfresh
  have hget : ∀ n : Nat,
      dictGet v (vars0 ++ [(v, VarValue.vectorV (List.replicate (n + 1) (.basicC val)))]) =
        some (.vectorV (List.replicate (n + 1) (.basicC val))) :=
    fun n => dictGet_append_fresh hfresh _
  refine ⟨?_, ?_, ?_⟩
  · intro i hik
    cases i with
    | zero =>
        simp [repeatAppendState, Solution.add_basic_component, put_basic,
          check_basic_vector_value_ok hd hval, dictMem_none hfresh, dictSet_fresh hfresh,
          pyLenOf, dictGet_append_fresh hfresh, valLen,
          Domain.get_remaining_available_complete_components, hd, List.replicate]
    | succ n =>
        have hins : CtrlSolution.vector_insertion_available v d
            (vars0 ++ [(v, VarValue.vectorV (List.replicate (n + 1) (.basicC val)))]) =
              .ok () := by
          simp only [CtrlSolution.vector_insertion_available, dictMem_some (hget n), if_true,
            hget n, valLen, Domain.get_remaining_available_basic_components, hd,
            List.length_replicate]
          rw [if_neg (by push_cast at hik ⊢; omega)]
        have hadd : CtrlSolution.vector_adding_available v (k - (n + 1)) = .ok () := by
          simp only [CtrlSolution.vector_adding_available]
          rw [if_neg (by push_cast at hik; omega)]
        simp only [repeatAppendState, Solution.add_basic_component, put_basic,
          check_basic_vector_value_ok hd hval, dictMem_some (hget n), Bool.true_eq_false,
          if_false, hins, pyLenOf, hget n, valLen, List.length_replicate,
          Domain.get_remaining_available_complete_components, hd]
        have hadd' : CtrlSolution.vector_adding_available v
            (k - ((List.replicate (n + 1) (CompValue.basicC val)).length : Int)) = .ok () := by
          simpa [List.length_replicate] using hadd
        simp only [List.length_replicate] at hadd' ⊢
        rw [hadd']
        simp only [dictSet_append_fresh hfresh]
        rw [← List.replicate_succ' (n + 1) (CompValue.basicC val)]
  · obtain ⟨m, hm⟩ : ∃ m, k.toNat = m + 1 := ⟨k.toNat - 1, by omega⟩
    have hmk : ((m : Int) + 1) = k := by omega
    rw [hm]
    have hins : CtrlSolution.vector_insertion_available v d
        (vars0 ++ [(v, VarValue.vectorV (List.replicate (m + 1) (.basicC val)))]) =
          .error (.solutionError ("The " ++ v ++ " is complete.")) := by
      simp only [CtrlSolution.vector_insertion_available, dictMem_some (hget m), if_true,
        hget m, valLen, Domain.get_remaining_available_basic_components, hd,
        List.length_replicate]
      rw [if_pos (by push_cast; omega)]
    simp [repeatAppendState, Solution.add_basic_component, put_basic,
      check_basic_vector_value_ok hd hval, dictMem_some (hget m), hins]
  · intro i h1 hik
    cases i with
    | zero => omega
    | succ n =>
        refine ⟨hget n, by positivity, ?_⟩
        simp only [List.length_replicate]
        exact_mod_cast hik

/-- Witness for C1 at concrete inputs: on vector `VI` with `max_size = 2`, the
two appends from empty succeed returning the remaining capacities 1 and 0, and
the third append fails with the capacity error without changing the store. -/
theorem c1_witness :
    (repeatAppendState emptySolution "VI" (.int 5) 0).add_basic_component "VI" (.int 5) none =
      (.ok 1, repeatAppendState emptySolution "VI" (.int 5) 1) ∧
    (repeatAppendState emptySolution "VI" (.int 5) 1).add_basic_component "VI" (.int 5) none =
      (.ok 0, repeatAppendState emptySolution "VI" (.int 5) 2) ∧
    (repeatAppendState emptySolution "VI" (.int 5) 2).add_basic_component "VI" (.int 5) none =
      (.error (.solutionError "The VI is complete."),
        repeatAppendState emptySolution "VI" (.int 5) 2) := by
  have h := c1_amended exampleDomain "VI" (.int 5) 0 2 (.integerDef 1 10) emptySolution rfl
    (by decide) (by decide) (by decide) (by decide)
  refine ⟨?_, ?_, ?_⟩
  · have h0 := h.1 0 (by decide)
    norm_num at h0
    exact h0
  · have h1 := h.1 1 (by decide)
    norm_num at h1
    exact h1
  · exact h.2.1

/-- Claim C2 (amended): for a layer vector, the element-level append on a fresh
variable stores component 0 holding only the appended element but the call then
raises an unbound-local error; on an assigned vector it appends a new component
`{element: value}` exactly when the element is already present in the last
component — regardless of whether that component is complete — and otherwise
fills the element into the last component in place (so the scenario a-then-b of
the claim holds at store level, but a new component can also be started while
the last one is still incomplete, see the counterexample). -/
theorem c2_amended (d : Domain) (v e : String) (val : BasicValue) (mn mx : Int)
    (els : List (String × BasicDef)) (bd : BasicDef) (s : Solution)
    (hdom : s.domain = some d)
    (hd : dictGet v d.definitions = some (.vectorDef mn mx (some (.layerComp els))))
    (he : dictGet e els = some bd)
    (hval : checkBasicDef bd val = true) :
    (dictGet v s.vars = none →
      s.add_element_to_layer_component v e val none =
        (.error (.nameError "local variable valid_index referenced before assignment"),
          { s with vars := s.vars ++ [(v, .vectorV [.layerC [(e, val)]])] })) ∧
    (∀ (l : List CompValue) (m : List (String × BasicValue)),
      dictGet v s.vars = some (.vectorV (l ++ [.layerC m])) →
      ((dictMem e m = true →
        (s.add_element_to_layer_component v e val none).2.vars =
          dictSet v (.vectorV ((l ++ [.layerC m]) ++ [.layerC [(e, val)]])) s.vars ∧
        ∃ r : Int, (s.add_element_to_layer_component v e val none).1 = .ok r) ∧
       (dictMem e m = false →
        (s.add_element_to_layer_component v e val none).2.vars =
          dictSet v (.vectorV (l ++ [.layerC (dictSet e val m)])) s.vars ∧
        ∃ r : Int, (s.add_element_to_layer_component v e val none).1 = .ok r))) := by
  obtain ⟨dom, vars0, di, fit⟩ := s
  obtain rfl : dom = some d := hdom
  constructor
  · intro hfresh
    replace hfresh : dictGet v vars0 = none := hfresh
    simp [Solution.add_element_to_layer_component, put_element,
      check_layer_vector_element_ok hd he hval, dictMem_none hfresh, dictSet_fresh hfresh]
  · intro l m hl
    replace hl : dictGet v vars0 = some (.vectorV (l ++ [.layerC m])) := hl
    constructor
    · intro hmem
      constructor
      · simp [Solution.add_element_to_layer_component, put_element,
          check_layer_vector_element_ok hd he hval, dictMem_some hl, hl,
          CtrlSolution.vector_element_adding_available, pyGetComp, pyGetIdx_concat_last,
          pyGetIdx_append_two_last, hmem, put_element_return, pyLenOf,
          dictGet_dictSet_self, valLen,
          Domain.get_remaining_available_layer_components, hd]
      · simp [Solution.add_element_to_layer_component, put_element,
          check_layer_vector_element_ok hd he hval, dictMem_some hl, hl,
          CtrlSolution.vector_element_adding_available, pyGetComp, pyGetIdx_concat_last,
          pyGetIdx_append_two_last, hmem, put_element_return, pyLenOf,
          dictGet_dictSet_self, valLen,
          Domain.get_remaining_available_layer_components, hd]
    · intro hmem
      constructor
      · simp [Solution.add_element_to_layer_component, put_element,
          check_layer_vector_element_ok hd he hval, dictMem_some hl, hl,
          CtrlSolution.vector_element_adding_available, pyGetComp, pyGetIdx_concat_last,
          hmem, pySetIdx_concat_last, put_element_return, pyLenOf, dictGet_dictSet_self,
          valLen, Domain.get_remaining_available_layer_components, hd]
      · simp [Solution.add_element_to_layer_component, put_element,
          check_layer_vector_element_ok hd he hval, dictMem_some hl, hl,
          CtrlSolution.vector_element_adding_available, pyGetComp, pyGetIdx_concat_last,
          hmem, pySetIdx_concat_last, put_element_return, pyLenOf, dictGet_dictSet_self,
          valLen, Domain.get_remaining_available_layer_components, hd]

/-- Witness for C2 at concrete inputs: the fresh append of `el1` into `VL`
stores component 0 with only `el1` and raises the unbound-local error;
appending `el2` to `VL = [{el1: 12}]` fills component 0 in place (still one
component); appending `el1` again instead creates component 1. -/
theorem c2_witness :
    dictGet "VL" emptySolution.vars = none ∧
    emptySolution.add_element_to_layer_component "VL" "el1" (.int 12) none =
      (.error (.nameError "local variable valid_index referenced before assignment"),
        { emptySolution with vars := [("VL", .vectorV [.layerC [("el1", .int 12)]])] }) ∧
    (solVLIncomplete.add_element_to_layer_component "VL" "el2" (.int 15) none).2.vars =
      dictSet "VL" (.vectorV [.layerC [("el1", .int 12), ("el2", .int 15)]])
        solVLIncomplete.vars ∧
    (solVLIncomplete.add_element_to_layer_component "VL" "el1" (.int 15) none).2.vars =
      dictSet "VL" (.vectorV [.layerC [("el1", .int 12)], .layerC [("el1", .int 15)]])
        solVLIncomplete.vars := by
  have hels : dictGet "VL" exampleDomain.definitions = some (.vectorDef 0 4 (some (.layerComp
      [("el1", .integerDef 0 100), ("el2", .integerDef 0 100)]))) := by decide
  have h0 := c2_amended exampleDomain "VL" "el1" (.int 12) 0 4
    [("el1", .integerDef 0 100), ("el2", .integerDef 0 100)] (.integerDef 0 100)
    emptySolution rfl hels (by decide) (by decide)
  have h1 := c2_amended exampleDomain "VL" "el2" (.int 15) 0 4
    [("el1", .integerDef 0 100), ("el2", .integerDef 0 100)] (.integerDef 0 100)
    solVLIncomplete rfl hels (by decide) (by decide)
  have h2 := c2_amended exampleDomain "VL" "el1" (.int 15) 0 4
    [("el1", .integerDef 0 100), ("el2", .integerDef 0 100)] (.integerDef 0 100)
    solVLIncomplete rfl hels (by decide) (by decide)
  refine ⟨by decide, h0.1 (by decide), ?_, ?_⟩
  · exact ((h1.2 [] [("el1", .int 12)] (by decide)).2 (by decide)).1
  · exact ((h2.2 [] [("el1", .int 12)] (by decide)).1 (by decide)).1

end PyCVOA
